import Mathlib

/-!
Verification development for the chatalyst-ai natural-language-to-SQL pipeline.

The Python source is shallowly embedded: strings are Lean `String`s manipulated
through their `List Char` code-point sequences (Python indexes strings by code
point), dictionaries with a fixed key set become structures with `Option`
fields (a `none` field models an absent key), and fallible collaborator calls
(database schema fetch, the generation oracle, query execution) are passed in
as `Except`/`Option`-valued parameters; a Python `try/except` block becomes a
`match` on the `Except` value.  Character classes (`\w`, `\s`, `str.lower`)
are modelled for the ASCII range, which covers every identifier the validator
inspects; CJK characters occurring in fixed message strings are compared
code-point for code-point exactly as Python does.
-/

/-- Python `\s` (ASCII whitespace as used by `str.strip`, `str.split`, `re \s`). -/
def pyIsSpace (c : Char) : Bool :=
  c = ' ' || c = '\t' || c = '\n' || c = '\r' || c = '\x0b' || c = '\x0c'

/-- Python regex `\w` restricted to ASCII: letters, digits, underscore. -/
def isWordChar (c : Char) : Bool :=
  c.isAlphanum || c = '_'

/-- Python `str.strip` on a code-point list. -/
def stripL (l : List Char) : List Char :=
  ((l.dropWhile pyIsSpace).reverse.dropWhile pyIsSpace).reverse

/-- Python `str.lower` (ASCII case folding; identity on other code points). -/
def pylower (s : String) : String :=
  String.mk (s.toList.map Char.toLower)

/-- Python `str.strip` on a `String`. -/
def pyStrip (s : String) : String :=
  String.mk (stripL s.toList)

/-- Position of the first occurrence of `pat` in the haystack, starting from
index `i` (Python `str.find`, with `none` for Python's `-1`). -/
def findSubAux (pat : List Char) : List Char → Nat → Option Nat
  | [], i => if pat.isEmpty then some i else none
  | c :: t, i => if pat.isPrefixOf (c :: t) then some i else findSubAux pat t (i + 1)

/-- Python `pat in hay` substring test on code-point lists. -/
def listContainsSub (hay pat : List Char) : Bool :=
  hay.tails.any (fun suf => pat.isPrefixOf suf)

/-- Python `pat in hay` substring test on `String`s. -/
def strContains (hay pat : String) : Bool :=
  listContainsSub hay.toList pat.toList

/-- All start positions at which `p` occurs in `l`, ascending — the positions
visited by the source's `find`/`pos + 1` scanning loop. -/
def subOccurrences (l p : List Char) : List Nat :=
  (List.range (l.length + 1)).filter (fun i => p.isPrefixOf (l.drop i))

/-- Python `str.split(sep)` for a non-empty separator, fuelled by the input
length (the fuel is always sufficient: each step consumes at least one
code point). -/
def pySplitAux (sep : List Char) : Nat → List Char → List (List Char)
  | 0, l => [l]
  | Nat.succ fuel, l =>
    match findSubAux sep l 0 with
    | none => [l]
    | some i => l.take i :: pySplitAux sep fuel (l.drop (i + sep.length))

/-- Python `str.split(sep)` for a non-empty separator. -/
def pySplit (sep l : List Char) : List (List Char) :=
  pySplitAux sep (l.length + 1) l

/-- Python `str.split()` (split on whitespace runs, dropping empty fields). -/
def pyWordsAux : List Char → List Char → List (List Char)
  | [], cur => if cur.isEmpty then [] else [cur.reverse]
  | c :: t, cur =>
    if pyIsSpace c then
      if cur.isEmpty then pyWordsAux t [] else cur.reverse :: pyWordsAux t []
    else pyWordsAux t (c :: cur)

/-- Python `str.split()` on a code-point list. -/
def pyWords (l : List Char) : List (List Char) :=
  pyWordsAux l []

/-!
SQLValidator (src/validation/sql_validator.py).

The schema collaborator `SchemaManager.get_all_column_names` is passed in as
an `Except Unit (List String)` value: `Except.error ()` models the call
raising (e.g. a database failure inside the lazy schema fetch), `Except.ok cs`
models it returning the set of column names (a list here; only membership is
used, so duplicates and order are irrelevant).  The source iterates over
Python sets of denylist patterns; the Lean embedding fixes the source-literal
order, which only matters when two patterns would be flagged at once.
-/

/-- Single-quote character, used by the validator's error messages. -/
def sglq : String := String.mk [Char.ofNat 39]

/-- Error message `Column {p} does not exist in schema` (the name is
single-quoted, as in the source f-string). -/
def colErrMsg (p : String) : String :=
  "Column " ++ sglq ++ p ++ sglq ++ " does not exist in schema"

/-- The `_invalid_patterns` denylist of commonly hallucinated column names
(`SQLValidator.__init__`, lines 23-35). -/
def invalid_patterns : List String :=
  ["conversion_rate", "revenue", "clicks", "impressions", "created_by",
   "user_id", "tags", "priority", "budget", "success_rate", "participant_count"]

/-- The `strict_invalid_patterns` set used for CTE queries
(`_validate_cte_query`, lines 125-136). -/
def strict_invalid_patterns : List String :=
  ["clicks", "impressions", "ctr", "roas", "created_by",
   "user_id", "tags", "priority", "budget", "participant_count"]

/-- `SQLValidator._is_basic_sql_valid`: the SQL must be a non-empty string
whose lower-cased, stripped text contains one of the four DML keywords. -/
def is_basic_sql_valid (sql : String) : Bool :=
  if sql.isEmpty then false
  else
    ["select", "insert", "update", "delete"].any
      (fun keyword => strContains (pyStrip (pylower sql)) keyword)

/-- `SQLValidator._contains_error_message`: failure-indicator substrings. -/
def contains_error_message (sql : String) : Bool :=
  ["無法根據現有資料庫結構生成此查詢", "sorry", "error", "unable", "cannot", "無法", "失敗"].any
    (fun indicator => strContains (pyStrip (pylower sql)) indicator)

/-- Matches the regex `\w+\.{pattern}\b` at the head of a suffix: one word
character, a dot, the pattern, then a word boundary. -/
def matchQualifiedDot (p : List Char) : List Char → Bool
  | c :: '.' :: rest =>
    isWordChar c && p.isPrefixOf rest &&
      (match rest.drop p.length with
       | [] => true
       | d :: _ => !isWordChar d)
  | _ => false

/-- Matches the regex `{kw}\s+{pattern}\s*[=<>]` at the head of a suffix. -/
def matchKwCompare (kw p : List Char) (suf : List Char) : Bool :=
  if kw.isPrefixOf suf then
    match suf.drop kw.length with
    | c :: rest =>
      if pyIsSpace c then
        let r2 := (c :: rest).dropWhile pyIsSpace
        if p.isPrefixOf r2 then
          match (r2.drop p.length).dropWhile pyIsSpace with
          | d :: _ => d = '=' || d = '<' || d = '>'
          | [] => false
        else false
      else false
    | [] => false
  else false

/-- Matches the regex `on\s+\w+\.{pattern}\s*=` at the head of a suffix. -/
def matchOnQualified (p : List Char) (suf : List Char) : Bool :=
  if ("on".toList).isPrefixOf suf then
    match suf.drop 2 with
    | c :: rest =>
      if pyIsSpace c then
        match (c :: rest).dropWhile pyIsSpace with
        | w :: rest2 =>
          if isWordChar w then
            match (w :: rest2).dropWhile isWordChar with
            | '.' :: rest3 =>
              if p.isPrefixOf rest3 then
                match (rest3.drop p.length).dropWhile pyIsSpace with
                | e :: _ => e = '='
                | [] => false
              else false
            | _ => false
          else false
        | [] => false
      else false
    | [] => false
  else false

/-- A regex matcher fires somewhere in the string (Python `re.search`). -/
def searchAny (m : List Char → Bool) (l : List Char) : Bool :=
  l.tails.any m

/-- `SQLValidator._is_likely_column_reference` (lines 152-178): the pattern
occurs qualified as `table.column`, or after `where`/`and`/`or` immediately
before a comparison operator, or qualified after `on` before `=`. -/
def is_likely_column_reference (sql_lower pat : String) : Bool :=
  searchAny (matchQualifiedDot pat.toList) sql_lower.toList ||
  searchAny (matchKwCompare "where".toList pat.toList) sql_lower.toList ||
  searchAny (matchKwCompare "and".toList pat.toList) sql_lower.toList ||
  searchAny (matchKwCompare "or".toList pat.toList) sql_lower.toList ||
  searchAny (matchOnQualified pat.toList) sql_lower.toList

/-- `SQLValidator._extract_select_aliases` (lines 180-217): candidate aliases
from the clause between `select` and `from` — the text after ` as `, or the
trailing word of a multi-word, non-aggregate expression. -/
def extract_select_aliases (sql : String) : List String :=
  match findSubAux "select".toList (pylower sql).toList 0,
        findSubAux "from".toList (pylower sql).toList 0 with
  | some select_start, some from_start =>
    (pySplit [','] (stripL (((pylower sql).toList.drop (select_start + 6)).take
        (from_start - (select_start + 6))))).foldl
      (fun aliases part0 =>
        let part := stripL part0
        if listContainsSub part " as ".toList then
          aliases ++ [String.mk (stripL ((pySplit " as ".toList part).getLastD []))]
        else if part.contains ' ' &&
            !(["count", "sum", "avg", "round", "nullif"].any
              (fun func => listContainsSub part func.toList)) then
          if 2 ≤ (pyWords part).length then
            aliases ++ [String.mk ((pyWords part).getLastD [])]
          else aliases
        else aliases) []
  | _, _ => []

/-- `SQLValidator._is_invalid_column_usage` (lines 219-265): flags the pattern
unless it is a SELECT alias or every occurrence lies after `order by` or
between `select` and `from`. -/
def is_invalid_column_usage (sql_lower pat : String) (select_aliases : List String) : Bool :=
  if select_aliases.contains pat then false
  else
    (subOccurrences sql_lower.toList pat.toList).any (fun pos =>
      !((findSubAux "order by".toList sql_lower.toList 0).isSome &&
        decide ((findSubAux "order by".toList sql_lower.toList 0).getD 0 < pos)) &&
      !((findSubAux "select".toList sql_lower.toList 0).isSome &&
        (findSubAux "from".toList sql_lower.toList 0).isSome &&
        decide ((findSubAux "select".toList sql_lower.toList 0).getD 0 < pos) &&
        decide (pos < (findSubAux "from".toList sql_lower.toList 0).getD 0)))

/-- Scans a pattern list and returns the error message of the first pattern
accepted by `flagged` (the `for pattern in ...: return f"Column ..."` loops). -/
def check_patterns (flagged : String → Bool) : List String → Option String
  | [] => none
  | p :: ps => if flagged p then some (colErrMsg p) else check_patterns flagged ps

/-- `SQLValidator._validate_cte_query` (lines 113-150): lenient CTE rule over
`strict_invalid_patterns`. -/
def validate_cte_query (all_columns_lower : List String) (sql_lower : String) : Option String :=
  check_patterns
    (fun pat => strContains sql_lower pat && !(all_columns_lower.contains pat) &&
      is_likely_column_reference sql_lower pat)
    strict_invalid_patterns

/-- The strict (non-CTE) pattern scan of `_check_column_validity`
(lines 95-111). -/
def check_strict_patterns (all_columns_lower select_aliases : List String)
    (sql_lower : String) : Option String :=
  check_patterns
    (fun pat => strContains sql_lower pat && !(all_columns_lower.contains pat) &&
      !(select_aliases.contains pat) &&
      is_invalid_column_usage sql_lower pat select_aliases)
    invalid_patterns

/-- `SQLValidator._check_column_validity` (lines 82-111): dispatches CTE
queries to the lenient rule, otherwise applies the strict rule; propagates a
schema-fetch failure. -/
def check_column_validity (cols : Except Unit (List String)) (sql : String) :
    Except Unit (Option String) :=
  if strContains (pylower sql) "with " && strContains (pylower sql) "as (" then
    match cols with
    | .error e => .error e
    | .ok cs => .ok (validate_cte_query (cs.map pylower) (pylower sql))
  else
    match cols with
    | .error e => .error e
    | .ok cs => .ok (check_strict_patterns (cs.map pylower) (extract_select_aliases sql)
        (pylower sql))

/-- The body of the `try` block of `SQLValidator.validate_sql` (lines 48-59);
an `Except.error` is an exception escaping the body. -/
def validate_sql_core (cols : Except Unit (List String)) (sql question : String) :
    Except Unit (Bool × Option String) :=
  if !is_basic_sql_valid sql then .ok (false, some "Invalid SQL structure")
  else if contains_error_message sql then
    .ok (false, some "AI returned error message instead of SQL")
  else
    match check_column_validity cols sql with
    | .error e => .error e
    | .ok (some validation_error) => .ok (false, some validation_error)
    | .ok none => .ok (true, none)

/-- `SQLValidator.validate_sql` (lines 37-63): the `try/except` wrapper — any
exception raised inside the body yields `(True, None)`.  The Lean function is
total, mirroring that `validate_sql` never raises. -/
def validate_sql (cols : Except Unit (List String)) (sql question : String) :
    Bool × Option String :=
  match validate_sql_core cols sql question with
  | .ok r => r
  | .error _ => (true, none)

/-- `SQLValidator.get_column_suggestions` (lines 267-286): up to three schema
columns related to the invalid name by case-insensitive containment. -/
def get_column_suggestions (all_columns : List String) (invalid_column : String) :
    List String :=
  (all_columns.filter (fun col =>
    strContains (pylower col) (pylower invalid_column) ||
    strContains (pylower invalid_column) (pylower col))).take 3

/-!
SchemaCache (src/database/schema_manager.py and
src/database/connector.py, `get_schema_info`).

`PostgreSQLConnector.execute_query` catches every exception internally and
returns `None` on failure, so it is modelled as total, `Option`-valued data:
`tables_result` is the outcome of the table-list query and `columns_result t`
the outcome of the per-table column query.  The connector and the manager are
then total Lean functions — nothing raises past the SchemaCache boundary.
-/

/-- One row of `information_schema.columns` as fetched by
`PostgreSQLConnector.get_schema_info` (lines 152-158). -/
structure ColumnInfo where
  column_name : String := ""
  data_type : String := ""
  udt_name : String := ""
  is_nullable : String := ""
  column_default : Option String := none
  character_maximum_length : Option Nat := none
  numeric_precision : Option Nat := none
  numeric_scale : Option Nat := none
deriving DecidableEq

/-- A schema snapshot: insertion-ordered table name / column list pairs. -/
abbrev SchemaInfo := List (String × List ColumnInfo)

/-- `PostgreSQLConnector.get_schema_info` (lines 127-171): a failed or empty
table query yields the empty snapshot; a failed or empty per-table column
query yields an empty column list for that table. -/
def connector_get_schema_info (tables_result : Option (List String))
    (columns_result : String → Option (List ColumnInfo)) : SchemaInfo :=
  match tables_result with
  | none => []
  | some tables =>
    if tables.isEmpty then []
    else tables.map (fun t => (t, (columns_result t).getD []))

/-- `SchemaManager.get_schema_info` (lines 25-34): memoizes the connector
fetch in `_schema_cache`; returns the snapshot and the updated cache. -/
def schema_manager_get_schema_info (fetch : Unit → SchemaInfo)
    (schema_cache : Option SchemaInfo) : SchemaInfo × Option SchemaInfo :=
  match schema_cache with
  | some s => (s, some s)
  | none => (fetch (), some (fetch ()))

/-!
VannaAgent (src/agent/vanna_agent.py).

The generation oracle (`vanna_instance`) is a pair of injected functions
returning `Except String String`: `Except.error e` models the call raising an
exception with message `e` (`str(e)` in the source).  A question argument is
`Option String`: `some s` is the Python string `s`, `none` a non-string
value (whose `str()` the model renders as `"None"`).  The agent state is the
`initialized` flag plus the conversation history; timestamps are abstract
naturals supplied by the caller (`datetime.now()`).
-/

/-- One conversation-history dictionary entry; `none` models an absent key. -/
structure Entry where
  type : Option String := none
  original_question : Option String := none
  processed_question : Option String := none
  sql : Option String := none
  context_used : Option Bool := none
  timestamp : Option Nat := none
deriving DecidableEq

/-- One result row of an executed query (`df.to_dict('records')` record). -/
abbrev Row := List (String × String)

/-- The dictionary returned by `ask`/`execute`; `none` models an absent key. -/
structure ResultDict where
  error : Option String := none
  question : Option String := none
  processed_question : Option String := none
  sql : Option String := none
  context_used : Option Bool := none
  results : Option (List Row) := none
  success : Option Bool := none
deriving DecidableEq

/-- Agent state: the `initialized` flag and the conversation history. -/
structure AgentState where
  initialized : Bool
  history : List Entry
deriving DecidableEq

/-- The generation oracle: `generate_sql` and `generate_rewritten_question`,
with `Except.error` modelling a raised exception. -/
structure Oracle where
  generate : String → Except String String
  rewrite : String → String → Except String String

/-- Outcomes of the initialization collaborators: is an API key configured,
does `MyVanna(...)` construction succeed, does the database connect. -/
structure InitEnv where
  api_key_present : Bool
  oracle_creation_ok : Bool
  db_connection_ok : Bool
deriving DecidableEq

/-- `VannaAgent._validate_config` (lines 342-347). -/
def validate_config (env : InitEnv) : Bool := env.api_key_present

/-- `VannaAgent._create_vanna_instance` (lines 349-360). -/
def create_vanna_instance (env : InitEnv) : Bool := env.oracle_creation_ok

/-- `VannaAgent._connect_database` (lines 362-384). -/
def connect_database (env : InitEnv) : Bool := env.db_connection_ok

/-- `VannaAgent.initialize` (lines 168-194): config validation, oracle
creation, database connection in order, each failure halting initialization;
`_train_system` catches all of its own exceptions (lines 404-406), so the
training step never fails the sequence. -/
def initAgent (env : InitEnv) : Bool :=
  if !validate_config env then false
  else if !create_vanna_instance env then false
  else if !connect_database env then false
  else true

/-- `self.max_history_length` (line 75). -/
def max_history_length : Nat := 20

/-- `VannaAgent._add_to_conversation_history` (lines 117-131): stamp the
entry, append it, and keep only the most recent `max_history_length` entries. -/
def add_to_conversation_history (now : Nat) (history : List Entry) (entry : Entry) :
    List Entry :=
  if (history ++ [{ entry with timestamp := some now }]).length > max_history_length then
    (history ++ [{ entry with timestamp := some now }]).drop
      ((history ++ [{ entry with timestamp := some now }]).length - max_history_length)
  else history ++ [{ entry with timestamp := some now }]

/-- The predicate of `_get_last_question`'s backward scan: a `question`-typed
entry whose `processed_question` is a non-empty string. -/
def question_has_text (item : Entry) : Bool :=
  (item.type == some "question") &&
    (match item.processed_question with
     | some s => !s.isEmpty
     | none => false)

/-- `VannaAgent._get_last_question` (lines 104-115). -/
def get_last_question (history : List Entry) : Option String :=
  match history.reverse.find? question_has_text with
  | some item => item.processed_question
  | none => none

/-- `VannaAgent._validate_question` (lines 604-608): the question must be a
non-empty string with non-whitespace content. -/
def validate_question (question : Option String) : Bool :=
  match question with
  | none => false
  | some s => if s.isEmpty then false else !(pyStrip s).isEmpty

/-- Python `str(question)` for the modelled question values. -/
def pyStr (question : Option String) : String :=
  match question with
  | some s => s
  | none => "None"

/-- `VannaAgent._rewrite_question_with_context` (lines 133-166): no previous
question or a raising/empty/identical rewrite falls back to the original. -/
def rewrite_question_with_context (o : Oracle) (history : List Entry)
    (question : String) : String :=
  match get_last_question history with
  | none => question
  | some last_question =>
    match o.rewrite last_question question with
    | .error _ => question
    | .ok rewritten =>
      if !rewritten.isEmpty && pyStrip rewritten ≠ pyStrip question then
        pyStrip rewritten
      else question

/-- The f-string of `ask`'s invalid-SQL error (line 232). -/
def invalid_sql_msg (validation_error : Option String) : String :=
  "生成的SQL無效: " ++ validation_error.getD "None" ++ ". 請重新描述您的問題或檢查欄位名稱。"

/-- The generation/validation/recording tail of `VannaAgent.ask`
(lines 222-262), after question validation and context rewriting; `qs` is the
original question string, `pq` the processed question. -/
def askGenerate (cols : Except Unit (List String)) (o : Oracle) (now : Nat)
    (st : AgentState) (qs pq : String) (use_conversation_context : Bool) :
    ResultDict × AgentState :=
  match o.generate pq with
  | .error e => ({ error := some e, question := some qs }, st)
  | .ok generated_sql =>
    if generated_sql.isEmpty then
      ({ error := some "Failed to generate SQL", question := some qs }, st)
    else
      match validate_sql cols generated_sql pq with
      | (false, validation_error) =>
        ({ error := some (invalid_sql_msg validation_error), question := some qs,
           processed_question := some pq, sql := some generated_sql }, st)
      | (true, _) =>
        ((if pq ≠ qs then
            { question := some qs, sql := some generated_sql,
              processed_question := some pq, context_used := some true }
          else { question := some qs, sql := some generated_sql } : ResultDict),
         { st with history :=
            (add_to_conversation_history now st.history
              { type := some "question", original_question := some qs,
                processed_question := some pq, sql := some generated_sql,
                context_used := some use_conversation_context }) })

/-- The `try` body of `VannaAgent.ask` (lines 211-262), entered once the
agent is initialized. -/
def askBody (cols : Except Unit (List String)) (o : Oracle) (now : Nat)
    (st : AgentState) (question : Option String)
    (use_conversation_context : Bool) : ResultDict × AgentState :=
  if !validate_question question then
    ({ error := some "Invalid question", question := some (pyStr question) }, st)
  else
    askGenerate cols o now st (pyStr question)
      (if use_conversation_context then
        rewrite_question_with_context o st.history (pyStr question)
      else pyStr question)
      use_conversation_context

/-- `VannaAgent.ask` (lines 196-262): lazily initializes the agent, validates
the question, optionally rewrites it with context, generates SQL, validates
it, and records the turn on success. -/
def ask (env : InitEnv) (cols : Except Unit (List String)) (o : Oracle) (now : Nat)
    (st : AgentState) (question : Option String)
    (use_conversation_context : Bool) : ResultDict × AgentState :=
  if !st.initialized && !initAgent env then
    ({ error := some "Vanna AI agent not initialized",
       question := some (pyStr question) }, st)
  else
    askBody cols o now { st with initialized := true } question use_conversation_context

/-- `VannaAgent.execute` (lines 264-304).  The database collaborator is
`dbExec : String → Except String (Option (List Row))`: `Except.error e`
models `execute_query` raising (caught by `execute`'s `try`), `Except.ok
none` models it returning `None` — which `PostgreSQLConnector.execute_query`
does on every database error, since it catches its own exceptions
(connector lines 114-125). -/
def execute (env : InitEnv) (cols : Except Unit (List String)) (o : Oracle)
    (dbExec : String → Except String (Option (List Row))) (now : Nat)
    (st : AgentState) (question : Option String)
    (use_conversation_context : Bool) : ResultDict × AgentState :=
  match ask env cols o now st question use_conversation_context with
  | (result, st2) =>
    if result.error.isSome then (result, st2)
    else if (pyStrip (result.sql.getD "")).isEmpty then
      ({ error := some "Empty SQL generated", question := some (pyStr question),
         sql := some (pyStrip (result.sql.getD "")), success := some false }, st2)
    else
      match dbExec (pyStrip (result.sql.getD "")) with
      | .error e => ({ result with error := some e, success := some false }, st2)
      | .ok df =>
        ({ result with results := some (df.getD []), success := some df.isSome }, st2)

/-!
Shared lemmas.
-/

theorem check_patterns_isSome_iff (f : String → Bool) (ps : List String) :
    (check_patterns f ps).isSome = true ↔ ∃ p, p ∈ ps ∧ f p = true := by
  induction ps with
  | nil => simp [check_patterns]
  | cons a t ih =>
    simp only [check_patterns]
    by_cases ha : f a = true
    · rw [if_pos ha]
      constructor
      · intro _; exact ⟨a, List.mem_cons_self a t, ha⟩
      · intro _; rfl
    · rw [if_neg ha, ih]
      constructor
      · rintro ⟨p, hp, hfp⟩; exact ⟨p, List.mem_cons_of_mem a hp, hfp⟩
      · rintro ⟨p, hp, hfp⟩
        rcases List.mem_cons.1 hp with h | h
        · exact absurd (h ▸ hfp) ha
        · exact ⟨p, h, hfp⟩

theorem check_patterns_eq_some (f : String → Bool) (ps : List String) (e : String)
    (h : check_patterns f ps = some e) :
    ∃ p, p ∈ ps ∧ f p = true ∧ e = colErrMsg p := by
  induction ps with
  | nil => simp [check_patterns] at h
  | cons a t ih =>
    rw [check_patterns] at h
    by_cases ha : f a = true
    · rw [if_pos ha] at h
      exact ⟨a, List.mem_cons_self a t, ha, (Option.some_injective _ h).symm⟩
    · rw [if_neg ha] at h
      rcases ih h with ⟨p, hp, hfp, he⟩
      exact ⟨p, List.mem_cons_of_mem a hp, hfp, he⟩

theorem check_column_validity_error (sql : String) :
    check_column_validity (Except.error ()) sql = Except.error () := by
  unfold check_column_validity
  split <;> rfl

/-!
Claim theorems.
-/

/-- C1: `SQLValidator.validate_sql` never raises — it is a total function of
its inputs — and whenever the body of its `try` block raises (modelled by
`validate_sql_core` returning `Except.error`, e.g. because the schema fetch
collaborator fails), it returns the valid outcome `(True, None)`; in
particular a failing schema collaborator combined with any SQL that reaches
the column check is swallowed into `(True, None)`. -/
theorem c1_validate_sql_fail_open (cols : Except Unit (List String))
    (sql question : String) :
    (∀ e, validate_sql_core cols sql question = Except.error e →
      validate_sql cols sql question = (true, none)) ∧
    (is_basic_sql_valid sql = true → contains_error_message sql = false →
      validate_sql (Except.error ()) sql question = (true, none)) := by
  constructor
  · intro e he
    unfold validate_sql
    rw [he]
  · intro hb hc
    unfold validate_sql validate_sql_core
    rw [hb, hc, check_column_validity_error]
    rfl

/-- Witness for C1 at a concrete input: the schema collaborator fails while
validating `select id from t`, the core errors, and the result is valid. -/
theorem c1_validate_sql_fail_open_witness :
    validate_sql (Except.error ()) "select id from t" "q" = (true, none) :=
  (c1_validate_sql_fail_open (Except.error ()) "select id from t" "q").2
    (by decide) (by decide)

/-- C2 counterexample: with schema columns `{id, name}` (no
`conversion_rate`) and no extracted SELECT alias, the non-CTE SQL
`SELECT id, conversion_rate FROM experiments` validates as VALID — the
claim's required invalid outcome does not occur, because the only occurrence
of `conversion_rate` lies between `select` and `from` and
`_is_invalid_column_usage` treats every such occurrence as an alias
position. -/
theorem c2_counterexample :
    validate_sql (Except.ok ["id", "name"])
      "SELECT id, conversion_rate FROM experiments" "q" = (true, none) := by
  decide

/-- C2 amended: the same denylisted, non-schema name is flagged — with a
reason naming `conversion_rate` — once it occurs outside the SELECT clause
(and not after `ORDER BY`), e.g. in a WHERE clause; inside the SELECT clause
it is treated as a potential alias and the query validates as valid. -/
theorem c2_amended :
    validate_sql (Except.ok ["id", "name"])
      "SELECT id, conversion_rate FROM experiments" "q" = (true, none) ∧
    validate_sql (Except.ok ["id", "name"])
      "SELECT id FROM experiments WHERE conversion_rate > 0.1" "q" =
      (false, some (colErrMsg "conversion_rate")) := by
  constructor <;> decide

/-- C6 counterexample: the CTE check does not test "only a stricter subset of
the denylist" — for a CTE query it flags `ctr`, a name that is in
`strict_invalid_patterns` but not in the `_invalid_patterns` denylist at
all (likewise `roas`). -/
theorem c6_counterexample :
    check_column_validity (Except.ok ["id"])
      "with t as (select 1) select * from t where ctr = 1" =
      Except.ok (some (colErrMsg "ctr")) ∧
    "ctr" ∈ strict_invalid_patterns ∧ ¬ "ctr" ∈ invalid_patterns := by
  refine ⟨by rfl, by decide, by decide⟩

/-- C6 amended: for every CTE query (lower-cased text containing `with ` and
`as (`), the column check routes to the lenient CTE rule over the fixed
`strict_invalid_patterns` set — which omits the denylist's plausible-alias
terms (`conversion_rate`, `revenue`, `success_rate`) but also adds `ctr` and
`roas`, which are not in the denylist; a name of that set is flagged exactly
when it occurs in the SQL, is not a schema column, and appears in a
column-reference context per `_is_likely_column_reference` (qualified as
`table.column`, or following `where`/`and`/`or` immediately before a
comparison operator, or `on table.column =`); alias-only occurrences are
ignored. -/
theorem c6_amended (sql : String) (cs : List String)
    (hw : strContains (pylower sql) "with " = true)
    (ha : strContains (pylower sql) "as (" = true) :
    check_column_validity (Except.ok cs) sql =
      Except.ok (validate_cte_query (cs.map pylower) (pylower sql)) ∧
    ((validate_cte_query (cs.map pylower) (pylower sql)).isSome = true ↔
      ∃ p, p ∈ strict_invalid_patterns ∧ strContains (pylower sql) p = true ∧
        (cs.map pylower).contains p = false ∧
        is_likely_column_reference (pylower sql) p = true) ∧
    (∀ e, validate_cte_query (cs.map pylower) (pylower sql) = some e →
      ∃ p, p ∈ strict_invalid_patterns ∧ e = colErrMsg p ∧
        is_likely_column_reference (pylower sql) p = true) := by
  refine ⟨?_, ?_, ?_⟩
  · unfold check_column_validity
    rw [hw, ha]
    rfl
  · rw [validate_cte_query, check_patterns_isSome_iff]
    constructor
    · rintro ⟨p, hp, hflag⟩
      simp only [Bool.and_eq_true, Bool.not_eq_true'] at hflag
      exact ⟨p, hp, hflag.1.1, hflag.1.2, hflag.2⟩
    · rintro ⟨p, hp, h1, h2, h3⟩
      refine ⟨p, hp, ?_⟩
      simp only [Bool.and_eq_true, Bool.not_eq_true']
      exact ⟨⟨h1, h2⟩, h3⟩
  · intro e he
    rcases check_patterns_eq_some _ _ _ he with ⟨p, hp, hflag, hmsg⟩
    simp only [Bool.and_eq_true] at hflag
    exact ⟨p, hp, hmsg, hflag.2⟩

/-- Witness for C6 amended at a concrete CTE query: `budget` (absent from the
schema, used in a WHERE comparison) is flagged. -/
theorem c6_amended_witness :
    validate_cte_query (["id"].map pylower)
      (pylower "with t as (select 1) select * from t where budget = 5") =
      some (colErrMsg "budget") ∧
    ∃ p, p ∈ strict_invalid_patterns ∧ colErrMsg "budget" = colErrMsg p ∧
      is_likely_column_reference
        (pylower "with t as (select 1) select * from t where budget = 5") p = true := by
  have h := c6_amended "with t as (select 1) select * from t where budget = 5" ["id"]
    (by decide) (by decide)
  exact ⟨by decide, h.2.2 (colErrMsg "budget") (by decide)⟩

/-- C7 counterexample: the suggestion comparison is case-insensitive, not
case-sensitive — for the invalid name `id` and the schema column `ID`, the
returned suggestion `ID` neither contains `id` as a substring nor is
contained in it under case-sensitive comparison. -/
theorem c7_counterexample :
    get_column_suggestions ["ID"] "id" = ["ID"] ∧
    strContains "ID" "id" = false ∧ strContains "id" "ID" = false := by
  refine ⟨by decide, by decide, by decide⟩

/-- C7 amended: `get_column_suggestions` returns at most 3 names, each of
which is a schema column related to the invalid name by CASE-INSENSITIVE
containment (one lower-cased string contains the other). -/
theorem c7_amended (all_columns : List String) (invalid_column : String) :
    (get_column_suggestions all_columns invalid_column).length ≤ 3 ∧
    (∀ c, c ∈ get_column_suggestions all_columns invalid_column →
      c ∈ all_columns ∧
      (strContains (pylower c) (pylower invalid_column) ||
       strContains (pylower invalid_column) (pylower c)) = true) := by
  constructor
  · exact List.length_take_le 3 _
  · intro c hc
    have hmem := List.mem_of_mem_take hc
    exact ⟨(List.mem_filter.1 hmem).1, (List.mem_filter.1 hmem).2⟩

/-- Witness for C7 amended: a concrete schema with a matching column. -/
theorem c7_amended_witness :
    (get_column_suggestions ["store_name", "name"] "name").length ≤ 3 ∧
    "name" ∈ ["store_name", "name"] ∧
    (strContains (pylower "name") (pylower "name") ||
     strContains (pylower "name") (pylower "name")) = true := by
  have h := c7_amended ["store_name", "name"] "name"
  exact ⟨h.1, (h.2 "name" (by decide)).1, (h.2 "name" (by decide)).2⟩

/-- C8: `get_schema_info` is memoized — after a first call populates the
cache, a second call returns the very same snapshot and cache without
invoking the (arbitrary, possibly different) fetch function — and a fetch
failure (the connector's table query returning no result, as
`execute_query` does on any database error) yields the empty snapshot; both
the connector's and the manager's functions are total, so no failure raises
past the SchemaCache boundary. -/
theorem c8_schema_cache :
    (∀ columns_result, connector_get_schema_info none columns_result = []) ∧
    (∀ columns_result, connector_get_schema_info (some []) columns_result = []) ∧
    (∀ fetch1 fetch2 : Unit → SchemaInfo,
      schema_manager_get_schema_info fetch2
          (schema_manager_get_schema_info fetch1 none).2 =
        ((schema_manager_get_schema_info fetch1 none).1,
         (schema_manager_get_schema_info fetch1 none).2)) := by
  refine ⟨fun _ => rfl, fun _ => rfl, fun fetch1 fetch2 => rfl⟩

/-- C4: the conversation history is bounded by `max_history_length = 20`:
any sequence of appends starting from the empty history stays within the
bound; a single append preserves the bound; the post-append history is
always a suffix of the old history extended by the stamped new entry (so the
surviving entries keep their original relative order and only the oldest are
discarded); and appending to a full history of 20 entries drops exactly the
oldest entry, keeping entries 2..21. -/
theorem c4_history_bound :
    (∀ steps : List (Nat × Entry),
      (steps.foldl (fun acc s => add_to_conversation_history s.1 acc s.2) []).length ≤
        max_history_length) ∧
    (∀ (now : Nat) (h : List Entry) (e : Entry),
      (h.length ≤ max_history_length →
        (add_to_conversation_history now h e).length ≤ max_history_length) ∧
      List.IsSuffix (add_to_conversation_history now h e)
        (h ++ [{ e with timestamp := some now }]) ∧
      (h.length = max_history_length →
        add_to_conversation_history now h e =
          h.drop 1 ++ [{ e with timestamp := some now }])) := by
  have hlen : ∀ (now : Nat) (h : List Entry) (e : Entry),
      (add_to_conversation_history now h e).length =
        min (h.length + 1) max_history_length := by
    intro now h e
    unfold add_to_conversation_history
    split
    · rename_i hgt
      simp only [List.length_append, List.length_singleton] at hgt ⊢
      rw [List.length_drop]
      simp only [List.length_append, List.length_singleton]
      omega
    · rename_i hle
      simp only [List.length_append, List.length_singleton] at hle ⊢
      omega
  constructor
  · intro steps
    suffices hgen : ∀ h : List Entry, h.length ≤ max_history_length →
        (steps.foldl (fun acc s => add_to_conversation_history s.1 acc s.2) h).length ≤
          max_history_length by
      exact hgen [] (by simp [max_history_length])
    induction steps with
    | nil => intro h hh; simpa using hh
    | cons s t ih =>
      intro h hh
      simp only [List.foldl_cons]
      exact ih _ (by rw [hlen]; omega)
  · intro now h e
    refine ⟨fun _ => by rw [hlen]; omega, ?_, ?_⟩
    · unfold add_to_conversation_history
      split
      · exact List.drop_suffix _ _
      · exact List.suffix_refl _
    · intro h20
      unfold add_to_conversation_history
      rw [if_pos]
      · rw [List.drop_append_eq_append_drop]
        simp [h20, max_history_length]
      · simp [h20, max_history_length]

/-- Witness for C4 at concrete inputs: appending the 21st entry to a full
history of 20 entries keeps the bound and drops exactly the oldest entry. -/
theorem c4_history_bound_witness :
    (add_to_conversation_history 9 (List.replicate 20 ({ type := some "question" } : Entry))
        { type := some "new" }).length ≤ max_history_length ∧
    add_to_conversation_history 9 (List.replicate 20 ({ type := some "question" } : Entry))
        { type := some "new" } =
      (List.replicate 20 ({ type := some "question" } : Entry)).drop 1 ++
        [{ ({ type := some "new" } : Entry) with timestamp := some 9 }] := by
  have h := c4_history_bound.2 9 (List.replicate 20 ({ type := some "question" } : Entry))
    { type := some "new" }
  exact ⟨h.1 (by decide), h.2.2 (by decide)⟩

/-- C5: `_get_last_question` returns `none` on an empty history; appending an
entry that is not a question turn with non-empty processed text leaves the
lookup unchanged (gaps are skipped); appending a question turn whose
processed text is the non-empty string `s` makes the lookup return `s`. -/
theorem c5_last_question :
    get_last_question [] = none ∧
    (∀ (h : List Entry) (e : Entry), question_has_text e = false →
      get_last_question (h ++ [e]) = get_last_question h) ∧
    (∀ (h : List Entry) (e : Entry) (s : String), e.type = some "question" →
      e.processed_question = some s → s.isEmpty = false →
      get_last_question (h ++ [e]) = some s) := by
  refine ⟨rfl, ?_, ?_⟩
  · intro h e he
    unfold get_last_question
    rw [List.reverse_append, List.reverse_singleton, List.singleton_append,
      List.find?_cons_of_neg _ (by simp [he])]
  · intro h e s ht hp hs
    have hq : question_has_text e = true := by
      simp [question_has_text, ht, hp, hs]
    unfold get_last_question
    rw [List.reverse_append, List.reverse_singleton, List.singleton_append,
      List.find?_cons_of_pos _ hq]
    exact hp

/-- Witness for C5 at concrete inputs: after a question turn with processed
text `X` followed by a non-question entry, the lookup still returns `X`. -/
theorem c5_last_question_witness :
    get_last_question
      ([{ type := some "question", processed_question := some "X" }] ++
        [({ type := some "note" } : Entry)]) = some "X" ∧
    get_last_question
      ([] ++ [({ type := some "question", processed_question := some "X" } : Entry)]) =
      some "X" := by
  refine ⟨?_, ?_⟩
  · rw [c5_last_question.2.1 _ _ (by decide)]
    exact c5_last_question.2.2 [] _ "X" rfl rfl (by decide)
  · exact c5_last_question.2.2 [] _ "X" rfl rfl (by decide)

theorem askGenerate_spec (cols : Except Unit (List String)) (o : Oracle) (now : Nat)
    (st : AgentState) (qs pq : String) (cf : Bool) :
    ((askGenerate cols o now st qs pq cf).1.error.isSome = true ∧
      (askGenerate cols o now st qs pq cf).2 = st) ∨
    ((askGenerate cols o now st qs pq cf).1.error = none ∧
      ∃ entry, (askGenerate cols o now st qs pq cf).2 =
        { st with history := add_to_conversation_history now st.history entry }) := by
  unfold askGenerate
  split
  · left; exact ⟨rfl, rfl⟩
  · split
    · left; exact ⟨rfl, rfl⟩
    · split
      · left; exact ⟨rfl, rfl⟩
      · right
        refine ⟨?_, _, rfl⟩
        split <;> rfl

theorem askGenerate_initialized (cols : Except Unit (List String)) (o : Oracle)
    (now : Nat) (st : AgentState) (qs pq : String) (cf : Bool) :
    (askGenerate cols o now st qs pq cf).2.initialized = st.initialized := by
  unfold askGenerate
  split
  · rfl
  · split
    · rfl
    · split <;> rfl

theorem askBody_spec (cols : Except Unit (List String)) (o : Oracle) (now : Nat)
    (st : AgentState) (q : Option String) (cf : Bool) :
    ((askBody cols o now st q cf).1.error.isSome = true ∧
      (askBody cols o now st q cf).2 = st) ∨
    ((askBody cols o now st q cf).1.error = none ∧
      ∃ entry, (askBody cols o now st q cf).2 =
        { st with history := add_to_conversation_history now st.history entry }) := by
  unfold askBody
  split
  · left; exact ⟨rfl, rfl⟩
  · exact askGenerate_spec ..

theorem askBody_initialized (cols : Except Unit (List String)) (o : Oracle) (now : Nat)
    (st : AgentState) (q : Option String) (cf : Bool) :
    (askBody cols o now st q cf).2.initialized = st.initialized := by
  unfold askBody
  split
  · rfl
  · exact askGenerate_initialized ..

theorem ask_spec (env : InitEnv) (cols : Except Unit (List String)) (o : Oracle)
    (now : Nat) (st : AgentState) (q : Option String) (cf : Bool) :
    ((ask env cols o now st q cf).1.error.isSome = true ∧
      (ask env cols o now st q cf).2.history = st.history) ∨
    ((ask env cols o now st q cf).1.error = none ∧
      ∃ entry, (ask env cols o now st q cf).2.history =
        add_to_conversation_history now st.history entry) := by
  unfold ask
  split
  · left; exact ⟨rfl, rfl⟩
  · rcases askBody_spec cols o now { st with initialized := true } q cf with
      ⟨h1, h2⟩ | ⟨h1, entry, h2⟩
    · left; exact ⟨h1, by rw [h2]⟩
    · right; exact ⟨h1, entry, by rw [h2]⟩

theorem askBody_empty_question (cols : Except Unit (List String)) (o : Oracle)
    (now : Nat) (st : AgentState) (cf : Bool) :
    askBody cols o now st (some "") cf =
      ({ error := some "Invalid question", question := some "" }, st) := rfl

theorem ask_empty_question (env : InitEnv) (cols : Except Unit (List String))
    (o : Oracle) (now : Nat) (st : AgentState) (cf : Bool) :
    ask env cols o now st (some "") cf =
      (if !st.initialized && !initAgent env then
        ({ error := some "Vanna AI agent not initialized", question := some "" }, st)
      else ({ error := some "Invalid question", question := some "" },
        { st with initialized := true })) := by
  unfold ask
  split
  · rfl
  · exact askBody_empty_question ..

/-- C3: every error return of `ask` (not-initialized, invalid question,
generation exception, empty generation, failed validation) leaves the
conversation history exactly as before the call, and a conversation turn is
appended exactly when `ask` returns a success result (no `error` key);
moreover `ask` on the empty-string question returns an error, leaves the
history unchanged, and never consults the oracle — its outcome is identical
for any two oracles. -/
theorem c3_ask_history (env : InitEnv) (cols : Except Unit (List String)) (o : Oracle)
    (now : Nat) (st : AgentState) (q : Option String) (cf : Bool) :
    ((ask env cols o now st q cf).1.error.isSome = true →
      (ask env cols o now st q cf).2.history = st.history) ∧
    ((ask env cols o now st q cf).1.error = none →
      ∃ entry, (ask env cols o now st q cf).2.history =
        add_to_conversation_history now st.history entry) ∧
    (∀ o2, ask env cols o2 now st (some "") cf = ask env cols o now st (some "") cf) ∧
    (ask env cols o now st (some "") cf).1.error.isSome = true ∧
    (ask env cols o now st (some "") cf).2.history = st.history := by
  refine ⟨?_, ?_, ?_, ?_, ?_⟩
  · intro herr
    rcases ask_spec env cols o now st q cf with ⟨_, h2⟩ | ⟨h1, _⟩
    · exact h2
    · rw [h1] at herr; exact absurd herr (by simp)
  · intro hok
    rcases ask_spec env cols o now st q cf with ⟨h1, _⟩ | ⟨_, entry, h2⟩
    · rw [hok] at h1; exact absurd h1 (by simp)
    · exact ⟨entry, h2⟩
  · intro o2
    rw [ask_empty_question, ask_empty_question]
  · rw [ask_empty_question]
    split <;> rfl
  · rw [ask_empty_question]
    split <;> rfl

/-- Witness for C3 at concrete inputs: an initialized agent asked the empty
question returns an error and an unchanged (empty) history; asked a real
question with a generating oracle it succeeds and appends the turn. -/
theorem c3_ask_history_witness :
    (ask { api_key_present := true, oracle_creation_ok := true, db_connection_ok := true }
        (Except.ok ["id"])
        { generate := fun _ => Except.ok "select id from t",
          rewrite := fun _ _ => Except.ok "" } 7
        { initialized := true, history := [] } (some "") false).1.error.isSome = true ∧
    (ask { api_key_present := true, oracle_creation_ok := true, db_connection_ok := true }
        (Except.ok ["id"])
        { generate := fun _ => Except.ok "select id from t",
          rewrite := fun _ _ => Except.ok "" } 7
        { initialized := true, history := [] } (some "") false).2.history = [] ∧
    (∃ entry,
      (ask { api_key_present := true, oracle_creation_ok := true, db_connection_ok := true }
          (Except.ok ["id"])
          { generate := fun _ => Except.ok "select id from t",
            rewrite := fun _ _ => Except.ok "" } 7
          { initialized := true, history := [] } (some "how many") false).2.history =
        add_to_conversation_history 7 [] entry) := by
  have h := c3_ask_history
    { api_key_present := true, oracle_creation_ok := true, db_connection_ok := true }
    (Except.ok ["id"])
    { generate := fun _ => Except.ok "select id from t",
      rewrite := fun _ _ => Except.ok "" } 7
    { initialized := true, history := [] } (some "how many") false
  exact ⟨h.2.2.2.1, h.2.2.2.2, h.2.1 (by rfl)⟩

/-- C10: calling `ask` on an uninitialized agent first attempts the
initialization sequence (config validation, oracle creation, database
connection — the training step swallows its own failures), whatever the
question is: if initialization fails, `ask` returns exactly the
`Vanna AI agent not initialized` error with the question, leaving the state
(including history) untouched and independent of the generation oracle; if
initialization succeeds, the agent state becomes initialized and only then is
the question validated — an empty question then yields the
`Invalid question` error, not the not-initialized error. -/
theorem c10_ask_initialization (env : InitEnv) (cols : Except Unit (List String))
    (o o2 : Oracle) (now : Nat) (st : AgentState) (q : Option String) (cf : Bool)
    (hun : st.initialized = false) :
    (initAgent env = false →
      ask env cols o now st q cf =
        ({ error := some "Vanna AI agent not initialized",
           question := some (pyStr q) }, st) ∧
      ask env cols o2 now st q cf = ask env cols o now st q cf) ∧
    (initAgent env = true → (ask env cols o now st q cf).2.initialized = true) ∧
    (initAgent env = true →
      ask env cols o now st (some "") cf =
        ({ error := some "Invalid question", question := some "" },
         { st with initialized := true })) := by
  refine ⟨?_, ?_, ?_⟩
  · intro hi
    have hcond : (!st.initialized && !initAgent env) = true := by rw [hun, hi]; rfl
    constructor
    · unfold ask; rw [if_pos hcond]
    · unfold ask; rw [if_pos hcond, if_pos hcond]
  · intro hi
    have hcond : (!st.initialized && !initAgent env) = false := by rw [hun, hi]; rfl
    unfold ask
    rw [if_neg (by simp [hcond])]
    rw [askBody_initialized]
  · intro hi
    have hcond : (!st.initialized && !initAgent env) = false := by rw [hun, hi]; rfl
    rw [ask_empty_question, if_neg (by simp [hcond])]

/-- Witness for C10 at concrete inputs: with a missing API key initialization
fails and `ask` on an uninitialized agent returns the not-initialized error
without touching state; with a full environment it initializes and an empty
question is then rejected as invalid. -/
theorem c10_ask_initialization_witness :
    ask { api_key_present := false, oracle_creation_ok := true, db_connection_ok := true }
        (Except.ok ["id"])
        { generate := fun _ => Except.ok "select id from t",
          rewrite := fun _ _ => Except.ok "" } 5
        { initialized := false, history := [] } (some "hi") false =
      ({ error := some "Vanna AI agent not initialized", question := some "hi" },
       { initialized := false, history := [] }) ∧
    ask { api_key_present := true, oracle_creation_ok := true, db_connection_ok := true }
        (Except.ok ["id"])
        { generate := fun _ => Except.ok "select id from t",
          rewrite := fun _ _ => Except.ok "" } 5
        { initialized := false, history := [] } (some "") false =
      ({ error := some "Invalid question", question := some "" },
       { initialized := true, history := [] }) := by
  have h1 := c10_ask_initialization
    { api_key_present := false, oracle_creation_ok := true, db_connection_ok := true }
    (Except.ok ["id"])
    { generate := fun _ => Except.ok "select id from t",
      rewrite := fun _ _ => Except.ok "" }
    { generate := fun _ => Except.ok "select id from t",
      rewrite := fun _ _ => Except.ok "" } 5
    { initialized := false, history := [] } (some "hi") false rfl
  have h2 := c10_ask_initialization
    { api_key_present := true, oracle_creation_ok := true, db_connection_ok := true }
    (Except.ok ["id"])
    { generate := fun _ => Except.ok "select id from t",
      rewrite := fun _ _ => Except.ok "" }
    { generate := fun _ => Except.ok "select id from t",
      rewrite := fun _ _ => Except.ok "" } 5
    { initialized := false, history := [] } (some "x") false rfl
  exact ⟨(h1.1 rfl).1, h2.2.2 rfl⟩

/-- C9 counterexample: when the generated SQL's execution fails through the
bundled `PostgreSQLConnector` — which catches every database exception inside
`execute_query` and returns `None` (modelled `Except.ok none`) — `execute`
returns the ask result with `success = false` and empty `results` but WITHOUT
any error: the claim's required error augmentation does not occur. -/
theorem c9_counterexample :
    (execute { api_key_present := true, oracle_creation_ok := true, db_connection_ok := true }
        (Except.ok ["id"])
        { generate := fun _ => Except.ok "select id from t",
          rewrite := fun _ _ => Except.ok "" }
        (fun _ => Except.ok none) 7
        { initialized := true, history := [] } (some "how many") false).1.error = none ∧
    (execute { api_key_present := true, oracle_creation_ok := true, db_connection_ok := true }
        (Except.ok ["id"])
        { generate := fun _ => Except.ok "select id from t",
          rewrite := fun _ _ => Except.ok "" }
        (fun _ => Except.ok none) 7
        { initialized := true, history := [] } (some "how many") false).1.success =
      some false ∧
    (execute { api_key_present := true, oracle_creation_ok := true, db_connection_ok := true }
        (Except.ok ["id"])
        { generate := fun _ => Except.ok "select id from t",
          rewrite := fun _ _ => Except.ok "" }
        (fun _ => Except.ok none) 7
        { initialized := true, history := [] } (some "how many") false).1.results =
      some [] := by
  refine ⟨rfl, rfl, rfl⟩

/-- C9 amended: when `ask` succeeds (no error, non-empty stripped SQL),
`execute` does not raise and preserves the ask result's `question` and `sql`
fields; if the database collaborator RAISES, the result is the ask result
augmented with the error message and `success = false`; but if the
collaborator reports failure by returning no dataframe — as the bundled
connector does on every database error — the result is the ask result with
`success = false` and empty `results`, and no error field is added. -/
theorem c9_execute_failure (env : InitEnv) (cols : Except Unit (List String))
    (o : Oracle) (dbExec : String → Except String (Option (List Row))) (now : Nat)
    (st : AgentState) (q : Option String) (cf : Bool)
    (h1 : (ask env cols o now st q cf).1.error = none)
    (h2 : (pyStrip ((ask env cols o now st q cf).1.sql.getD "")).isEmpty = false) :
    (∀ e, dbExec (pyStrip ((ask env cols o now st q cf).1.sql.getD "")) =
        Except.error e →
      execute env cols o dbExec now st q cf =
        ({ (ask env cols o now st q cf).1 with error := some e, success := some false },
         (ask env cols o now st q cf).2)) ∧
    (dbExec (pyStrip ((ask env cols o now st q cf).1.sql.getD "")) = Except.ok none →
      execute env cols o dbExec now st q cf =
        ({ (ask env cols o now st q cf).1 with results := some [], success := some false },
         (ask env cols o now st q cf).2)) := by
  rcases ha : ask env cols o now st q cf with ⟨result, st2⟩
  rw [ha] at h1 h2
  simp only at h1 h2
  constructor
  · intro e hdb
    simp only at hdb
    unfold execute
    rw [ha]
    simp only [h1, Option.isSome_none, Bool.false_eq_true, if_false, h2, hdb]
    try rfl
  · intro hdb
    simp only at hdb
    unfold execute
    rw [ha]
    simp only [h1, Option.isSome_none, Bool.false_eq_true, if_false, h2, hdb]
    try rfl

/-- Witness for C9 amended at concrete inputs: a raising database
collaborator makes `execute` return the ask result augmented with the raised
message and `success = false`. -/
theorem c9_execute_failure_witness :
    execute { api_key_present := true, oracle_creation_ok := true, db_connection_ok := true }
        (Except.ok ["id"])
        { generate := fun _ => Except.ok "select id from t",
          rewrite := fun _ _ => Except.ok "" }
        (fun _ => Except.error "db boom") 7
        { initialized := true, history := [] } (some "how many") false =
      ({ (ask { api_key_present := true, oracle_creation_ok := true, db_connection_ok := true }
            (Except.ok ["id"])
            { generate := fun _ => Except.ok "select id from t",
              rewrite := fun _ _ => Except.ok "" } 7
            { initialized := true, history := [] } (some "how many") false).1 with
          error := some "db boom", success := some false },
       (ask { api_key_present := true, oracle_creation_ok := true, db_connection_ok := true }
          (Except.ok ["id"])
          { generate := fun _ => Except.ok "select id from t",
            rewrite := fun _ _ => Except.ok "" } 7
          { initialized := true, history := [] } (some "how many") false).2) := by
  have h := c9_execute_failure
    { api_key_present := true, oracle_creation_ok := true, db_connection_ok := true }
    (Except.ok ["id"])
    { generate := fun _ => Except.ok "select id from t",
      rewrite := fun _ _ => Except.ok "" }
    (fun _ => Except.error "db boom") 7
    { initialized := true, history := [] } (some "how many") false (by rfl) (by rfl)
  exact h.1 "db boom" rfl
